import Mathlib

/-!
# Verification of `sc2/distances.py` (`DistanceCalculation`)

A shallow embedding of the frame-gated distance-calculation engine of
`src/python-sc2/sc2/distances.py`.  Python floats are modelled as rationals
(`ℚ`), numpy arrays as lists, Python exceptions (failed `assert`, `TypeError`,
numpy `ValueError` / `IndexError`) as `none` of an `Option`, and the mutable
object state as explicit state passing on a `DistanceCalculation` structure.
-/

set_option autoImplicit false

namespace Distances

/-- Modelled from the spec: the entity/unit model is external to this core
(`sc2/unit.py` is not part of the analysed source).  Per the spec, an entity
exposes a 2-D floating-point position (`position_tuple`), a stable opaque
identity tag (`tag`), and an externally assigned dense zero-based
`distance_calculation_index`. -/
structure Unit where
  position_tuple : ℚ × ℚ
  tag : Nat
  distance_calculation_index : Nat
  deriving Repr, DecidableEq

/-- The state of a `DistanceCalculation` object together with its external
collaborators: `game_loop` is `self.state.game_loop` (the current frame
counter) and `all_units` is `self.all_units` (the current entity set, in
index order).  The remaining fields are the instance attributes set in
`__init__` and mutated by the build methods. -/
structure DistanceCalculation where
  game_loop : Nat
  all_units : List Unit
  _generated_frame2 : Int
  _cached_pdist : Option (List ℚ)
  _cached_cdist : Option (List (List ℚ))
  deriving Repr, DecidableEq

/-- `__init__`: the generation counter starts at `-100` and both caches at
`None` (`game_loop` and `all_units` are external inputs). -/
def DistanceCalculation.init (loop : Nat) (units : List Unit) : DistanceCalculation :=
  { game_loop := loop
    all_units := units
    _generated_frame2 := -100
    _cached_pdist := none
    _cached_cdist := none }

/-- `_units_count`: `len(self.all_units)`. -/
def _units_count (s : DistanceCalculation) : Nat :=
  s.all_units.length

/-- `square_to_condensed(i, j)`: asserts `i != j` (modelled as `none`), swaps
so the larger index comes first, and returns
`self._units_count * j - j * (j + 1) // 2 + i - 1 - j` over the integers
(Python ints; `//` on the even product `j*(j+1)` is exact division). -/
def square_to_condensed (s : DistanceCalculation) (i j : Nat) : Option Int :=
  if i = j then none
  else
    let ij : Nat × Nat := if i < j then (j, i) else (i, j)
    some ((_units_count s : Int) * ij.2 - ((ij.2 : Int) * (ij.2 + 1)) / 2
      + (ij.1 : Int) - 1 - (ij.2 : Int))

/-- C2: for `i ≠ j`, `square_to_condensed` normalizes so the larger index
plays the role of `i` and the smaller the role of `j`, and returns the offset
`N·j − j·(j+1)/2 + i − 1 − j` with `i := max`, `j := min` and
`N := _units_count` (the entity count, which at build time of the condensed
vector is the count the vector was built from). -/
theorem square_to_condensed_eq_formula (s : DistanceCalculation) (i j : Nat)
    (h : i ≠ j) :
    square_to_condensed s i j =
      some ((_units_count s : Int) * (min i j : Nat) -
        ((min i j : Nat) : Int) * (((min i j : Nat) : Int) + 1) / 2 +
        ((max i j : Nat) : Int) - 1 - ((min i j : Nat) : Int)) := by
  unfold square_to_condensed
  rcases lt_trichotomy i j with hlt | heq | hgt
  · rw [if_neg h, if_pos hlt]
    rw [min_eq_left (le_of_lt hlt), max_eq_right (le_of_lt hlt)]
  · exact absurd heq h
  · rw [if_neg h, if_neg (by omega)]
    rw [min_eq_right (le_of_lt hgt), max_eq_left (le_of_lt hgt)]

/-- Witness for C2 at `N = 3`, `(i, j) = (1, 2)`:
`3·1 − 1·2/2 + 2 − 1 − 1 = 2`. -/
theorem square_to_condensed_eq_formula_witness :
    (1 : Nat) ≠ 2 ∧
      square_to_condensed (DistanceCalculation.init 0
        [⟨(0, 0), 10, 0⟩, ⟨(3, 4), 11, 1⟩, ⟨(0, 4), 12, 2⟩]) 1 2 =
        some ((3 : Int) * 1 - 1 * (1 + 1) / 2 + 2 - 1 - 1) := by
  refine ⟨by decide, ?_⟩
  have h := square_to_condensed_eq_formula
    (DistanceCalculation.init 0
      [⟨(0, 0), 10, 0⟩, ⟨(3, 4), 11, 1⟩, ⟨(0, 4), 12, 2⟩]) 1 2 (by decide)
  simpa using h

/-- C6: the condensed index mapping is symmetric in its two arguments
(for distinct indices, as the claim states it). -/
theorem square_to_condensed_symm (s : DistanceCalculation) (i j : Nat)
    (h : i ≠ j) :
    square_to_condensed s i j = square_to_condensed s j i := by
  unfold square_to_condensed
  rcases lt_trichotomy i j with hlt | heq | hgt
  · rw [if_neg h, if_neg (Ne.symm h), if_pos hlt, if_neg (by omega)]
  · exact absurd heq h
  · rw [if_neg h, if_neg (Ne.symm h), if_neg (by omega), if_pos hgt]

/-- Witness for C6 at `(i, j) = (0, 2)` on a 3-unit state. -/
theorem square_to_condensed_symm_witness :
    (0 : Nat) ≠ 2 ∧
      square_to_condensed (DistanceCalculation.init 0
        [⟨(0, 0), 10, 0⟩, ⟨(3, 4), 11, 1⟩, ⟨(0, 4), 12, 2⟩]) 0 2 =
      square_to_condensed (DistanceCalculation.init 0
        [⟨(0, 0), 10, 0⟩, ⟨(3, 4), 11, 1⟩, ⟨(0, 4), 12, 2⟩]) 2 0 :=
  ⟨by decide,
    square_to_condensed_symm (DistanceCalculation.init 0
      [⟨(0, 0), 10, 0⟩, ⟨(3, 4), 11, 1⟩, ⟨(0, 4), 12, 2⟩]) 0 2 (by decide)⟩

/-- C8: `square_to_condensed(i, i)` always hits the `assert i != j`
("No diagonal elements in condensed matrix!") and never returns an offset. -/
theorem square_to_condensed_diag_fatal (s : DistanceCalculation) (i : Nat) :
    square_to_condensed s i i = none := by
  simp [square_to_condensed]

/-- The flattened position generator
`(coord for unit in self.all_units for coord in unit.position_tuple)`. -/
def flat_positions : List Unit → List ℚ
  | [] => []
  | u :: us => u.position_tuple.1 :: u.position_tuple.2 :: flat_positions us

/-- `np.fromiter(it, dtype=np.float, count=count)`: raises `ValueError`
(modelled as `none`) when the iterable yields fewer than `count` items,
otherwise reads exactly the first `count` items. -/
def np_fromiter (flat : List ℚ) (count : Nat) : Option (List ℚ) :=
  if flat.length < count then none else some (flat.take count)

/-- Groups a flat coordinate list into consecutive `(x, y)` rows. -/
def pairup : List ℚ → List (ℚ × ℚ)
  | [] => []
  | [_] => []
  | x :: y :: rest => (x, y) :: pairup rest

/-- `.reshape((n, 2))`: succeeds exactly when the flat length is `2·n`. -/
def reshape_n2 (flat : List ℚ) (n : Nat) : Option (List (ℚ × ℚ)) :=
  if flat.length = 2 * n then some (pairup flat) else none

/-- `.reshape((-1, 2))`: succeeds exactly when the flat length is even. -/
def reshape_any2 (flat : List ℚ) : Option (List (ℚ × ℚ)) :=
  if flat.length % 2 = 0 then some (pairup flat) else none

/-- The position-array stage of `_calculate_distances_method1/2` (lines
52–57 / 66–71), with the position iterable abstracted as `flat`:
`np.fromiter(flat, count=2*n).reshape((n, 2))` followed by
`assert len(positions_array) == n` (failed assert modelled as `none`). -/
def positions_array_checked (flat : List ℚ) (n : Nat) : Option (List (ℚ × ℚ)) :=
  (np_fromiter flat (2 * n)).bind fun taken =>
    (reshape_n2 taken n).bind fun arr =>
      if arr.length = n then some arr else none

/-- The position-array stage of `_calculate_distances_method3` (lines
80–82): the same counted `np.fromiter`, a `.reshape((-1, 2))`, and no
assert. -/
def positions_array_unchecked (flat : List ℚ) (n : Nat) : Option (List (ℚ × ℚ)) :=
  (np_fromiter flat (2 * n)).bind fun taken => reshape_any2 taken

/-- scipy's `"sqeuclidean"` metric: `(x1−x2)² + (y1−y2)²`. -/
def sqeuclidean (p q : ℚ × ℚ) : ℚ :=
  (p.1 - q.1) ^ 2 + (p.2 - q.2) ^ 2

/-- `scipy.spatial.distance.pdist(ps, "sqeuclidean")`: the condensed vector
listing, for each row `i` in order, the distances to all later rows `j > i`. -/
def pdistList : List (ℚ × ℚ) → List ℚ
  | [] => []
  | p :: ps => ps.map (sqeuclidean p) ++ pdistList ps

/-- `scipy.spatial.distance.cdist(ps, ps, "sqeuclidean")`: the full square
matrix of pairwise squared distances. -/
def cdistList (ps : List (ℚ × ℚ)) : List (List ℚ) :=
  ps.map fun p => ps.map (sqeuclidean p)

/-- `_calculate_distances_method1`: sets `_generated_frame2` to the current
frame first, builds the checked position array, stores the condensed pdist
vector in `_cached_pdist` and returns it. -/
def _calculate_distances_method1 (s : DistanceCalculation) :
    Option (DistanceCalculation × List ℚ) :=
  let s1 := { s with _generated_frame2 := (s.game_loop : Int) }
  (positions_array_checked (flat_positions s1.all_units) (_units_count s1)).map
    fun positions_array =>
      let pd := pdistList positions_array
      ({ s1 with _cached_pdist := some pd }, pd)

/-- `_calculate_distances_method2`: same checked position array, but stores
the square cdist matrix in `_cached_cdist` and returns it. -/
def _calculate_distances_method2 (s : DistanceCalculation) :
    Option (DistanceCalculation × List (List ℚ)) :=
  let s1 := { s with _generated_frame2 := (s.game_loop : Int) }
  (positions_array_checked (flat_positions s1.all_units) (_units_count s1)).map
    fun positions_array =>
      let cd := cdistList positions_array
      ({ s1 with _cached_cdist := some cd }, cd)

/-- `_calculate_distances_method3`: "Nearly same as above, but without
asserts" — unchecked position array, square cdist matrix. -/
def _calculate_distances_method3 (s : DistanceCalculation) :
    Option (DistanceCalculation × List (List ℚ)) :=
  let s1 := { s with _generated_frame2 := (s.game_loop : Int) }
  (positions_array_unchecked (flat_positions s1.all_units) (_units_count s1)).map
    fun positions_array =>
      let cd := cdistList positions_array
      ({ s1 with _cached_cdist := some cd }, cd)

/-- The `_pdist` property with `calculate_distances` bound to
`_calculate_distances_method1` (the strategy-1 binding): rebuild when
`_generated_frame2 != self.state.game_loop`, otherwise return
`self._cached_pdist` unchanged.  The inner `Option` is the Python value
(which may be `None` when served from an unbuilt cache); the outer `Option`
models an exception during the rebuild. -/
def _pdist_m1 (s : DistanceCalculation) :
    Option (DistanceCalculation × Option (List ℚ)) :=
  if s._generated_frame2 ≠ (s.game_loop : Int) then
    (_calculate_distances_method1 s).map fun p => (p.1, some p.2)
  else some (s, s._cached_pdist)

/-- The `_cdist` property with `calculate_distances` bound to
`_calculate_distances_method2` (the strategy-2 binding). -/
def _cdist_m2 (s : DistanceCalculation) :
    Option (DistanceCalculation × Option (List (List ℚ))) :=
  if s._generated_frame2 ≠ (s.game_loop : Int) then
    (_calculate_distances_method2 s).map fun p => (p.1, some p.2)
  else some (s, s._cached_cdist)

/-- The `_cdist` property with `calculate_distances` bound to
`_calculate_distances_method3` (the strategy-3 binding). -/
def _cdist_m3 (s : DistanceCalculation) :
    Option (DistanceCalculation × Option (List (List ℚ))) :=
  if s._generated_frame2 ≠ (s.game_loop : Int) then
    (_calculate_distances_method3 s).map fun p => (p.1, some p.2)
  else some (s, s._cached_cdist)

lemma flat_positions_length (us : List Unit) :
    (flat_positions us).length = 2 * us.length := by
  induction us with
  | nil => rfl
  | cons u us ih => simp [flat_positions, ih]; omega

lemma pairup_flat_positions (us : List Unit) :
    pairup (flat_positions us) = us.map Unit.position_tuple := by
  induction us with
  | nil => rfl
  | cons u us ih => simp [flat_positions, pairup, ih]

lemma positions_array_checked_flat (us : List Unit) :
    positions_array_checked (flat_positions us) us.length =
      some (us.map Unit.position_tuple) := by
  have hlen := flat_positions_length us
  simp [positions_array_checked, np_fromiter, reshape_n2, hlen,
    List.take_of_length_le (le_of_eq hlen), pairup_flat_positions]

lemma positions_array_unchecked_flat (us : List Unit) :
    positions_array_unchecked (flat_positions us) us.length =
      some (us.map Unit.position_tuple) := by
  have hlen := flat_positions_length us
  simp [positions_array_unchecked, np_fromiter, reshape_any2, hlen,
    List.take_of_length_le (le_of_eq hlen), pairup_flat_positions,
    Nat.mul_mod_right]

lemma calculate_distances_method1_eq (s : DistanceCalculation) :
    _calculate_distances_method1 s =
      some ({ s with _generated_frame2 := (s.game_loop : Int),
                     _cached_pdist :=
                       some (pdistList (s.all_units.map Unit.position_tuple)) },
            pdistList (s.all_units.map Unit.position_tuple)) := by
  simp [_calculate_distances_method1, _units_count, positions_array_checked_flat]

lemma calculate_distances_method2_eq (s : DistanceCalculation) :
    _calculate_distances_method2 s =
      some ({ s with _generated_frame2 := (s.game_loop : Int),
                     _cached_cdist :=
                       some (cdistList (s.all_units.map Unit.position_tuple)) },
            cdistList (s.all_units.map Unit.position_tuple)) := by
  simp [_calculate_distances_method2, _units_count, positions_array_checked_flat]

lemma calculate_distances_method3_eq (s : DistanceCalculation) :
    _calculate_distances_method3 s =
      some ({ s with _generated_frame2 := (s.game_loop : Int),
                     _cached_cdist :=
                       some (cdistList (s.all_units.map Unit.position_tuple)) },
            cdistList (s.all_units.map Unit.position_tuple)) := by
  simp [_calculate_distances_method3, _units_count, positions_array_unchecked_flat]

/-- C1: the cache accessors are frame-gated: when `_generated_frame2`
equals the current `game_loop` they serve the cached structure with no
recomputation (state unchanged), otherwise they defer to the bound build
function; and every successful build sets `_generated_frame2` to the current
frame and leaves the served data in the corresponding cache slot. -/
theorem cache_accessors_frame_gated (s : DistanceCalculation) :
    (s._generated_frame2 = (s.game_loop : Int) →
      _pdist_m1 s = some (s, s._cached_pdist) ∧
      _cdist_m2 s = some (s, s._cached_cdist) ∧
      _cdist_m3 s = some (s, s._cached_cdist)) ∧
    (s._generated_frame2 ≠ (s.game_loop : Int) →
      _pdist_m1 s = (_calculate_distances_method1 s).map (fun p => (p.1, some p.2)) ∧
      _cdist_m2 s = (_calculate_distances_method2 s).map (fun p => (p.1, some p.2)) ∧
      _cdist_m3 s = (_calculate_distances_method3 s).map (fun p => (p.1, some p.2))) ∧
    (∀ s' pd, _calculate_distances_method1 s = some (s', pd) →
      s'._generated_frame2 = (s'.game_loop : Int) ∧ s'._cached_pdist = some pd) ∧
    (∀ s' cd, _calculate_distances_method2 s = some (s', cd) →
      s'._generated_frame2 = (s'.game_loop : Int) ∧ s'._cached_cdist = some cd) ∧
    (∀ s' cd, _calculate_distances_method3 s = some (s', cd) →
      s'._generated_frame2 = (s'.game_loop : Int) ∧ s'._cached_cdist = some cd) := by
  refine ⟨fun hf => ?_, fun hs => ?_, ?_, ?_, ?_⟩
  · exact ⟨by simp [_pdist_m1, hf], by simp [_cdist_m2, hf], by simp [_cdist_m3, hf]⟩
  · exact ⟨by simp [_pdist_m1, hs], by simp [_cdist_m2, hs], by simp [_cdist_m3, hs]⟩
  · intro s' pd h
    rw [calculate_distances_method1_eq] at h
    obtain ⟨h1, h2⟩ := Prod.mk.injEq .. ▸ Option.some.injEq .. ▸ h
    subst h2; rw [← h1]; exact ⟨rfl, rfl⟩
  · intro s' cd h
    rw [calculate_distances_method2_eq] at h
    obtain ⟨h1, h2⟩ := Prod.mk.injEq .. ▸ Option.some.injEq .. ▸ h
    subst h2; rw [← h1]; exact ⟨rfl, rfl⟩
  · intro s' cd h
    rw [calculate_distances_method3_eq] at h
    obtain ⟨h1, h2⟩ := Prod.mk.injEq .. ▸ Option.some.injEq .. ▸ h
    subst h2; rw [← h1]; exact ⟨rfl, rfl⟩

/-- Witness for C1: on a fresh one-unit state the accessor serves the cache
unchanged; on a stale state it defers to the build. -/
theorem cache_accessors_frame_gated_witness :
    _pdist_m1 ⟨7, [⟨(1, 2), 10, 0⟩], 7, some [], none⟩ =
      some (⟨7, [⟨(1, 2), 10, 0⟩], 7, some [], none⟩, some []) ∧
    _pdist_m1 ⟨7, [⟨(1, 2), 10, 0⟩], 6, some [], none⟩ =
      (_calculate_distances_method1 ⟨7, [⟨(1, 2), 10, 0⟩], 6, some [], none⟩).map
        (fun p => (p.1, some p.2)) := by
  constructor
  · exact ((cache_accessors_frame_gated ⟨7, [⟨(1, 2), 10, 0⟩], 7, some [], none⟩).1
      (by decide)).1
  · exact ((cache_accessors_frame_gated ⟨7, [⟨(1, 2), 10, 0⟩], 6, some [], none⟩).2.1
      (by decide)).1

/-- C10: both accessors share the single generation counter
`_generated_frame2`.  After the condensed-only strategy-1 build, `_cdist`
(under either square binding) reports fresh and serves whatever
`_cached_cdist` already held — untouched by the build, possibly `None` or an
older frame's matrix — without rebuilding; symmetrically, after a
square-only build `_pdist` serves the untouched `_cached_pdist`. -/
theorem shared_generation_counter (s s1 s2 : DistanceCalculation)
    (pd : List ℚ) (cd : List (List ℚ))
    (h1 : _calculate_distances_method1 s = some (s1, pd))
    (h2 : _calculate_distances_method2 s = some (s2, cd)) :
    (s1._generated_frame2 = (s1.game_loop : Int) ∧
     s1._cached_cdist = s._cached_cdist ∧
     _cdist_m2 s1 = some (s1, s._cached_cdist) ∧
     _cdist_m3 s1 = some (s1, s._cached_cdist)) ∧
    (s2._generated_frame2 = (s2.game_loop : Int) ∧
     s2._cached_pdist = s._cached_pdist ∧
     _pdist_m1 s2 = some (s2, s._cached_pdist)) := by
  rw [calculate_distances_method1_eq] at h1
  rw [calculate_distances_method2_eq] at h2
  obtain ⟨h1a, -⟩ := Prod.mk.injEq .. ▸ Option.some.injEq .. ▸ h1
  obtain ⟨h2a, -⟩ := Prod.mk.injEq .. ▸ Option.some.injEq .. ▸ h2
  rw [← h1a, ← h2a]
  refine ⟨⟨rfl, rfl, ?_, ?_⟩, rfl, rfl, ?_⟩ <;>
    simp [_cdist_m2, _cdist_m3, _pdist_m1]

/-- Witness for C10 on a concrete two-unit stale state: the strategy-1
build runs, after which `_cdist` serves the old (`None`) square cache. -/
theorem shared_generation_counter_witness :
    _calculate_distances_method1 ⟨3, [⟨(0, 0), 10, 0⟩, ⟨(1, 0), 11, 1⟩], -100, none, none⟩ =
      some (⟨3, [⟨(0, 0), 10, 0⟩, ⟨(1, 0), 11, 1⟩], 3, some [1], none⟩, [1]) ∧
    _calculate_distances_method2 ⟨3, [⟨(0, 0), 10, 0⟩, ⟨(1, 0), 11, 1⟩], -100, none, none⟩ =
      some (⟨3, [⟨(0, 0), 10, 0⟩, ⟨(1, 0), 11, 1⟩], 3, none,
        some [[0, 1], [1, 0]]⟩, [[0, 1], [1, 0]]) ∧
    _cdist_m2 ⟨3, [⟨(0, 0), 10, 0⟩, ⟨(1, 0), 11, 1⟩], 3, some [1], none⟩ =
      some (⟨3, [⟨(0, 0), 10, 0⟩, ⟨(1, 0), 11, 1⟩], 3, some [1], none⟩, none) ∧
    _pdist_m1 ⟨3, [⟨(0, 0), 10, 0⟩, ⟨(1, 0), 11, 1⟩], 3, none, some [[0, 1], [1, 0]]⟩ =
      some (⟨3, [⟨(0, 0), 10, 0⟩, ⟨(1, 0), 11, 1⟩], 3, none, some [[0, 1], [1, 0]]⟩, none) := by
  have hb1 : _calculate_distances_method1
      ⟨3, [⟨(0, 0), 10, 0⟩, ⟨(1, 0), 11, 1⟩], -100, none, none⟩ =
      some (⟨3, [⟨(0, 0), 10, 0⟩, ⟨(1, 0), 11, 1⟩], 3, some [1], none⟩, [1]) := by
    rw [calculate_distances_method1_eq]
    simp [pdistList, sqeuclidean]
  have hb2 : _calculate_distances_method2
      ⟨3, [⟨(0, 0), 10, 0⟩, ⟨(1, 0), 11, 1⟩], -100, none, none⟩ =
      some (⟨3, [⟨(0, 0), 10, 0⟩, ⟨(1, 0), 11, 1⟩], 3, none,
        some [[0, 1], [1, 0]]⟩, [[0, 1], [1, 0]]) := by
    rw [calculate_distances_method2_eq]
    simp [cdistList, sqeuclidean]
  have h := shared_generation_counter
    ⟨3, [⟨(0, 0), 10, 0⟩, ⟨(1, 0), 11, 1⟩], -100, none, none⟩ _ _ _ _ hb1 hb2
  exact ⟨hb1, hb2, h.1.2.2.1, h.2.2.2⟩

/-- `distance_math_hypot_squared`: `pow(p1[0]-p2[0], 2) + pow(p1[1]-p2[1], 2)`. -/
def distance_math_hypot_squared (p1 p2 : ℚ × ℚ) : ℚ :=
  (p1.1 - p2.1) ^ 2 + (p1.2 - p2.2) ^ 2

/-- `_distance_squared_unit_to_unit_method0`: direct hypot-squared arithmetic
on the two entities' positions (never touches the cache or the state). -/
def _distance_squared_unit_to_unit_method0 (u1 u2 : Unit) : ℚ :=
  distance_math_hypot_squared u1.position_tuple u2.position_tuple

/-- numpy 1-D indexing with a Python int index: a negative index wraps once
from the end; an index out of range raises `IndexError` (`none`). -/
def npGetVec (l : List ℚ) (i : Int) : Option ℚ :=
  if 0 ≤ i then l[i.toNat]?
  else if -(l.length : Int) ≤ i then l[(i + l.length).toNat]?
  else none

/-- numpy 2-D indexing `m[i, j]` (the indices here are nonnegative
`distance_calculation_index` values). -/
def npGetMat (m : List (List ℚ)) (i j : Nat) : Option ℚ :=
  (m[i]?).bind fun row => row[j]?

/-- `_distance_squared_unit_to_unit_method1` (the strategy-1 query): the
identity-tag shortcut returns 0; otherwise the condensed index is computed,
the assert compares it against `len(self._cached_pdist)` — the cache slot as
of call time (a `TypeError` on `None`, modelled as `none`) — and only then is
`self._pdist` read (which rebuilds when stale) and indexed. -/
def _distance_squared_unit_to_unit_method1 (s : DistanceCalculation)
    (u1 u2 : Unit) : Option (DistanceCalculation × ℚ) :=
  if u1.tag = u2.tag then some (s, 0)
  else
    (square_to_condensed s u1.distance_calculation_index
        u2.distance_calculation_index).bind fun condensed_index =>
      (s._cached_pdist).bind fun cached =>
        if condensed_index < (cached.length : Int) then
          (_pdist_m1 s).bind fun p =>
            (p.2).bind fun pd =>
              (npGetVec pd condensed_index).map fun d => (p.1, d)
        else none

/-- `_distance_squared_unit_to_unit_method2` under the strategy-2 binding
(`calculate_distances = _calculate_distances_method2`): read
`self._cdist[i1, i2]`. -/
def _distance_squared_unit_to_unit_method2 (s : DistanceCalculation)
    (u1 u2 : Unit) : Option (DistanceCalculation × ℚ) :=
  (_cdist_m2 s).bind fun p =>
    (p.2).bind fun m =>
      (npGetMat m u1.distance_calculation_index
          u2.distance_calculation_index).map fun d => (p.1, d)

/-- `_distance_squared_unit_to_unit_method2` under the strategy-3 binding
(`calculate_distances = _calculate_distances_method3`): the same body, with
`self._cdist` deferring to the assert-free build. -/
def _distance_squared_unit_to_unit_method2_b3 (s : DistanceCalculation)
    (u1 u2 : Unit) : Option (DistanceCalculation × ℚ) :=
  (_cdist_m3 s).bind fun p =>
    (p.2).bind fun m =>
      (npGetMat m u1.distance_calculation_index
          u2.distance_calculation_index).map fun d => (p.1, d)

/-- The unit-to-unit implementations `_distances_override_functions` can bind
to `self._distance_squared_unit_to_unit`. -/
inductive DistFunc
  | method0
  | method1
  | method2
  deriving Repr, DecidableEq

/-- The build implementations it can bind to `self.calculate_distances`
(method 0 leaves `calculate_distances` unbound). -/
inductive CalcFunc
  | unbound
  | method1
  | method2
  | method3
  deriving Repr, DecidableEq

/-- `_distances_override_functions(method)`: `assert 0 <= method <= 3`
(modelled as `none`), then rebind the query function — and, for methods 1–3,
the build function — according to `method`.  Methods 2 and 3 bind the same
query (`_distance_squared_unit_to_unit_method2`) and differ only in the
build. -/
def _distances_override_functions (method : Int) : Option (DistFunc × CalcFunc) :=
  if 0 ≤ method ∧ method ≤ 3 then
    some (if method = 0 then (DistFunc.method0, CalcFunc.unbound)
      else if method = 1 then (DistFunc.method1, CalcFunc.method1)
      else if method = 2 then (DistFunc.method2, CalcFunc.method2)
      else (DistFunc.method2, CalcFunc.method3))
  else none

lemma sqeuclidean_self (p : ℚ × ℚ) : sqeuclidean p p = 0 := by
  simp [sqeuclidean]

lemma npGetMat_cdistList (ps : List (ℚ × ℚ)) (i j : Nat) (p q : ℚ × ℚ)
    (hp : ps[i]? = some p) (hq : ps[j]? = some q) :
    npGetMat (cdistList ps) i j = some (sqeuclidean p q) := by
  simp [npGetMat, cdistList, List.getElem?_map, hp, hq]

lemma pairup_length (l : List ℚ) : (pairup l).length = l.length / 2 := by
  match l with
  | [] => simp [pairup]
  | [x] => simp [pairup]
  | x :: y :: rest =>
    simp [pairup, pairup_length rest]
    omega

lemma cdist_m2_stale (s : DistanceCalculation)
    (hs : s._generated_frame2 ≠ (s.game_loop : Int)) :
    _cdist_m2 s =
      some ({ s with _generated_frame2 := (s.game_loop : Int),
                     _cached_cdist :=
                       some (cdistList (s.all_units.map Unit.position_tuple)) },
        some (cdistList (s.all_units.map Unit.position_tuple))) := by
  simp [_cdist_m2, hs, calculate_distances_method2_eq]

lemma cdist_m3_stale (s : DistanceCalculation)
    (hs : s._generated_frame2 ≠ (s.game_loop : Int)) :
    _cdist_m3 s =
      some ({ s with _generated_frame2 := (s.game_loop : Int),
                     _cached_cdist :=
                       some (cdistList (s.all_units.map Unit.position_tuple)) },
        some (cdistList (s.all_units.map Unit.position_tuple))) := by
  simp [_cdist_m3, hs, calculate_distances_method3_eq]

/-- C3: on a stale frame (so that strategy 2 rebuilds from the current entity
set), and for entities whose `distance_calculation_index` locates them in
`all_units` (the external index contract), the strategy-2 lookup returns
exactly the strategy-0 direct arithmetic value (the model computes over `ℚ`,
so "within floating-point tolerance" is exact equality). -/
theorem strategy0_matches_strategy2 (s : DistanceCalculation) (a b : Unit)
    (ha : s.all_units[a.distance_calculation_index]? = some a)
    (hb : s.all_units[b.distance_calculation_index]? = some b)
    (hstale : s._generated_frame2 ≠ (s.game_loop : Int)) :
    ∃ s2, _distance_squared_unit_to_unit_method2 s a b =
      some (s2, _distance_squared_unit_to_unit_method0 a b) := by
  refine ⟨{ s with _generated_frame2 := (s.game_loop : Int),
                   _cached_cdist :=
                     some (cdistList (s.all_units.map Unit.position_tuple)) }, ?_⟩
  have hma : (s.all_units.map Unit.position_tuple)[a.distance_calculation_index]? =
      some a.position_tuple := by
    rw [List.getElem?_map, ha]; rfl
  have hmb : (s.all_units.map Unit.position_tuple)[b.distance_calculation_index]? =
      some b.position_tuple := by
    rw [List.getElem?_map, hb]; rfl
  have hmat := npGetMat_cdistList (s.all_units.map Unit.position_tuple) _ _ _ _ hma hmb
  simp [_distance_squared_unit_to_unit_method2, cdist_m2_stale s hstale, hmat,
    _distance_squared_unit_to_unit_method0, distance_math_hypot_squared, sqeuclidean]

/-- Witness for C3 on a stale two-unit state: both strategies give 1. -/
theorem strategy0_matches_strategy2_witness :
    ([⟨(0, 0), 10, 0⟩, ⟨(1, 0), 11, 1⟩] : List Unit)[(0 : Nat)]? =
      some ⟨(0, 0), 10, 0⟩ ∧
    ([⟨(0, 0), 10, 0⟩, ⟨(1, 0), 11, 1⟩] : List Unit)[(1 : Nat)]? =
      some ⟨(1, 0), 11, 1⟩ ∧
    (-100 : Int) ≠ ((2 : Nat) : Int) ∧
    (∃ s2, _distance_squared_unit_to_unit_method2
        ⟨2, [⟨(0, 0), 10, 0⟩, ⟨(1, 0), 11, 1⟩], -100, none, none⟩
        ⟨(0, 0), 10, 0⟩ ⟨(1, 0), 11, 1⟩ =
      some (s2, _distance_squared_unit_to_unit_method0
        ⟨(0, 0), 10, 0⟩ ⟨(1, 0), 11, 1⟩)) :=
  ⟨by decide, by decide, by decide,
    strategy0_matches_strategy2
      ⟨2, [⟨(0, 0), 10, 0⟩, ⟨(1, 0), 11, 1⟩], -100, none, none⟩
      ⟨(0, 0), 10, 0⟩ ⟨(1, 0), 11, 1⟩ (by decide) (by decide) (by decide)⟩

/-- C4: an entity's squared distance to itself is 0 under every strategy:
strategy 0 by direct arithmetic, strategy 1 by the identity-tag shortcut
(bypassing the condensed index formula), and strategies 2 and 3 (on a stale
frame, with the entity's index inside the current entity set) via the zero
diagonal of the rebuilt square matrix. -/
theorem self_distance_zero_all_strategies (s : DistanceCalculation) (u : Unit)
    (hstale : s._generated_frame2 ≠ (s.game_loop : Int))
    (hidx : u.distance_calculation_index < _units_count s) :
    _distance_squared_unit_to_unit_method0 u u = 0 ∧
    _distance_squared_unit_to_unit_method1 s u u = some (s, 0) ∧
    (∃ s2, _distance_squared_unit_to_unit_method2 s u u = some (s2, 0)) ∧
    (∃ s3, _distance_squared_unit_to_unit_method2_b3 s u u = some (s3, 0)) := by
  have hlen : u.distance_calculation_index <
      (s.all_units.map Unit.position_tuple).length := by
    simpa [List.length_map] using hidx
  have hp : (s.all_units.map Unit.position_tuple)[u.distance_calculation_index]? =
      some ((s.all_units.map Unit.position_tuple).get ⟨u.distance_calculation_index, hlen⟩) := by
    simp [List.getElem?_eq_getElem hlen]
  have hmat := npGetMat_cdistList (s.all_units.map Unit.position_tuple) _ _ _ _ hp hp
  rw [sqeuclidean_self] at hmat
  refine ⟨?_, ?_,
    ⟨{ s with _generated_frame2 := (s.game_loop : Int),
              _cached_cdist :=
                some (cdistList (s.all_units.map Unit.position_tuple)) }, ?_⟩,
    ⟨{ s with _generated_frame2 := (s.game_loop : Int),
              _cached_cdist :=
                some (cdistList (s.all_units.map Unit.position_tuple)) }, ?_⟩⟩
  · simp [_distance_squared_unit_to_unit_method0, distance_math_hypot_squared]
  · simp [_distance_squared_unit_to_unit_method1]
  · simp [_distance_squared_unit_to_unit_method2, cdist_m2_stale s hstale, hmat]
  · simp [_distance_squared_unit_to_unit_method2_b3, cdist_m3_stale s hstale, hmat]

/-- Witness for C4 on a one-unit stale state. -/
theorem self_distance_zero_all_strategies_witness :
    (-100 : Int) ≠ ((2 : Nat) : Int) ∧
    (0 : Nat) < _units_count ⟨2, [⟨(0, 0), 10, 0⟩], -100, none, none⟩ ∧
    (_distance_squared_unit_to_unit_method0 ⟨(0, 0), 10, 0⟩ ⟨(0, 0), 10, 0⟩ = 0 ∧
     _distance_squared_unit_to_unit_method1 ⟨2, [⟨(0, 0), 10, 0⟩], -100, none, none⟩
       ⟨(0, 0), 10, 0⟩ ⟨(0, 0), 10, 0⟩ =
       some (⟨2, [⟨(0, 0), 10, 0⟩], -100, none, none⟩, 0) ∧
     (∃ s2, _distance_squared_unit_to_unit_method2
        ⟨2, [⟨(0, 0), 10, 0⟩], -100, none, none⟩
        ⟨(0, 0), 10, 0⟩ ⟨(0, 0), 10, 0⟩ = some (s2, 0)) ∧
     (∃ s3, _distance_squared_unit_to_unit_method2_b3
        ⟨2, [⟨(0, 0), 10, 0⟩], -100, none, none⟩
        ⟨(0, 0), 10, 0⟩ ⟨(0, 0), 10, 0⟩ = some (s3, 0))) :=
  ⟨by decide, by decide,
    self_distance_zero_all_strategies
      ⟨2, [⟨(0, 0), 10, 0⟩], -100, none, none⟩ ⟨(0, 0), 10, 0⟩
      (by decide) (by decide)⟩

/-- The condensed vector that the current frame's strategy-1 build produces
from the current entity set — what the spec's phrase "the current frame's
cached condensed vector" denotes (cf. `calculate_distances_method1_eq`: a
build this frame caches exactly this list). -/
def current_frame_pdist (s : DistanceCalculation) : List ℚ :=
  pdistList (s.all_units.map Unit.position_tuple)

/-- Counterexample to C5: a stale three-unit state whose leftover cached
condensed vector is empty.  The two queried entities have distinct tags, the
computed offset 0 lies inside the current frame's condensed vector (length
3), yet the query aborts: the assert compares the offset against
`len(self._cached_pdist)` as of call time — the empty leftover vector — not
against the current frame's vector. -/
theorem condensed_bounds_check_cex :
    (⟨(0, 0), 10, 0⟩ : Unit).tag ≠ (⟨(1, 0), 11, 1⟩ : Unit).tag ∧
    square_to_condensed
      ⟨5, [⟨(0, 0), 10, 0⟩, ⟨(1, 0), 11, 1⟩, ⟨(0, 1), 12, 2⟩], 4, some [], none⟩
      0 1 = some 0 ∧
    (0 : Int) < ((current_frame_pdist
      ⟨5, [⟨(0, 0), 10, 0⟩, ⟨(1, 0), 11, 1⟩, ⟨(0, 1), 12, 2⟩], 4, some [], none⟩).length : Int) ∧
    _distance_squared_unit_to_unit_method1
      ⟨5, [⟨(0, 0), 10, 0⟩, ⟨(1, 0), 11, 1⟩, ⟨(0, 1), 12, 2⟩], 4, some [], none⟩
      ⟨(0, 0), 10, 0⟩ ⟨(1, 0), 11, 1⟩ = none := by
  refine ⟨by decide, by decide, ?_, by decide⟩
  simp [current_frame_pdist, pdistList]

/-- C5 as amended: the strategy-1 query asserts the computed offset against
the length of the condensed vector cached *at call time*.  When the cache is
fresh (already built this frame) that vector is the current frame's one and
the claim holds: an in-range offset is served from it and an offset at or
beyond its length aborts.  On a stale cache the assert instead consults the
previous build's leftover vector (see the counterexample). -/
theorem condensed_bounds_check_amended (s : DistanceCalculation)
    (u1 u2 : Unit) (pd : List ℚ) (k : Int)
    (hfresh : s._generated_frame2 = (s.game_loop : Int))
    (hcache : s._cached_pdist = some pd)
    (htag : u1.tag ≠ u2.tag)
    (hk : square_to_condensed s u1.distance_calculation_index
      u2.distance_calculation_index = some k)
    (hk0 : 0 ≤ k) :
    ((pd.length : Int) ≤ k →
      _distance_squared_unit_to_unit_method1 s u1 u2 = none) ∧
    (k < (pd.length : Int) →
      ∃ d, pd[k.toNat]? = some d ∧
        _distance_squared_unit_to_unit_method1 s u1 u2 = some (s, d)) := by
  constructor
  · intro hge
    simp [_distance_squared_unit_to_unit_method1, htag, hk, hcache,
      not_lt.mpr hge]
  · intro hlt
    have hkn : k.toNat < pd.length := by omega
    refine ⟨pd.get ⟨k.toNat, hkn⟩, by simp [List.getElem?_eq_getElem hkn], ?_⟩
    simp [_distance_squared_unit_to_unit_method1, htag, hk, hcache, hlt,
      _pdist_m1, hfresh, npGetVec, hk0, List.getElem?_eq_getElem hkn]

/-- Witness for the amended C5 on a fresh three-unit state with cached
vector `[7, 8, 9]`: the offset 0 passes the assert and serves `7`. -/
theorem condensed_bounds_check_amended_witness :
    (⟨(0, 0), 10, 0⟩ : Unit).tag ≠ (⟨(1, 0), 11, 1⟩ : Unit).tag ∧
    square_to_condensed
      ⟨5, [⟨(0, 0), 10, 0⟩, ⟨(1, 0), 11, 1⟩, ⟨(0, 1), 12, 2⟩], 5, some [7, 8, 9], none⟩
      0 1 = some 0 ∧
    (∃ d, ([7, 8, 9] : List ℚ)[(0 : Int).toNat]? = some d ∧
      _distance_squared_unit_to_unit_method1
        ⟨5, [⟨(0, 0), 10, 0⟩, ⟨(1, 0), 11, 1⟩, ⟨(0, 1), 12, 2⟩], 5, some [7, 8, 9], none⟩
        ⟨(0, 0), 10, 0⟩ ⟨(1, 0), 11, 1⟩ =
      some (⟨5, [⟨(0, 0), 10, 0⟩, ⟨(1, 0), 11, 1⟩, ⟨(0, 1), 12, 2⟩], 5,
        some [7, 8, 9], none⟩, d)) := by
  refine ⟨by decide, by decide, ?_⟩
  exact (condensed_bounds_check_amended
    ⟨5, [⟨(0, 0), 10, 0⟩, ⟨(1, 0), 11, 1⟩, ⟨(0, 1), 12, 2⟩], 5, some [7, 8, 9], none⟩
    ⟨(0, 0), 10, 0⟩ ⟨(1, 0), 11, 1⟩ [7, 8, 9] 0
    (by decide) rfl (by decide) (by decide) (by decide)).2 (by decide)

/-- Counterexample to C7: a flattened position source of length 3 ≠ 2·1 on
which the checked position-array stage of builds 1 and 2 succeeds instead of
failing: the counted `np.fromiter` silently truncates an over-long source,
after which the `assert len(positions_array) == N` holds by construction. -/
theorem build_length_assert_cex :
    ([(0 : ℚ), 1, 0] : List ℚ).length ≠ 2 * 1 ∧
    positions_array_checked [(0 : ℚ), 1, 0] 1 = some [((0 : ℚ), 1)] ∧
    positions_array_unchecked [(0 : ℚ), 1, 0] 1 = some [((0 : ℚ), 1)] := by
  refine ⟨by decide, by decide, by decide⟩

lemma positions_array_checked_of_le (flat : List ℚ) (n : Nat)
    (hle : 2 * n ≤ flat.length) :
    positions_array_checked flat n = some (pairup (flat.take (2 * n))) := by
  have ht : (flat.take (2 * n)).length = 2 * n := by
    simp [List.length_take]
    omega
  have hp : (pairup (flat.take (2 * n))).length = n := by
    rw [pairup_length, ht]
    omega
  simp [positions_array_checked, np_fromiter, not_lt.mpr hle, reshape_n2, ht, hp]

lemma positions_array_unchecked_of_le (flat : List ℚ) (n : Nat)
    (hle : 2 * n ≤ flat.length) :
    positions_array_unchecked flat n = some (pairup (flat.take (2 * n))) := by
  have ht : (flat.take (2 * n)).length = 2 * n := by
    simp [List.length_take]
    omega
  simp [positions_array_unchecked, np_fromiter, not_lt.mpr hle, reshape_any2, ht,
    Nat.mul_mod_right]

/-- C7 as amended: what is fatal about a length mismatch is the counted
`np.fromiter` — present in *all three* builds, strategy 3 included — which
aborts when fewer than `2·N` coordinates are available; `2·N` or more
coordinates never abort (extras are silently truncated, so an over-long
source violates "length equals exactly `2·N`" without being fatal, and the
post-reshape assert of builds 1 and 2 always holds once reached).  On the
program's own position source the length is always exactly `2·N` and every
build succeeds. -/
theorem build_length_amended (flat : List ℚ) (n : Nat) (s : DistanceCalculation) :
    (flat.length < 2 * n →
      positions_array_checked flat n = none ∧
      positions_array_unchecked flat n = none) ∧
    (2 * n ≤ flat.length →
      positions_array_checked flat n = some (pairup (flat.take (2 * n))) ∧
      positions_array_unchecked flat n = some (pairup (flat.take (2 * n)))) ∧
    ((flat_positions s.all_units).length = 2 * _units_count s ∧
      _calculate_distances_method1 s ≠ none ∧
      _calculate_distances_method2 s ≠ none ∧
      _calculate_distances_method3 s ≠ none) := by
  refine ⟨fun hlt => ?_, fun hle => ?_, ?_, ?_, ?_, ?_⟩
  · constructor <;>
      simp [positions_array_checked, positions_array_unchecked, np_fromiter, hlt]
  · exact ⟨positions_array_checked_of_le flat n hle,
      positions_array_unchecked_of_le flat n hle⟩
  · exact flat_positions_length s.all_units
  · simp [calculate_distances_method1_eq]
  · simp [calculate_distances_method2_eq]
  · simp [calculate_distances_method3_eq]

/-- Witness for the amended C7: a one-coordinate source is fatal for both
stages, a three-coordinate source truncates to one row, and the real
builds succeed. -/
theorem build_length_amended_witness :
    positions_array_checked [(0 : ℚ)] 1 = none ∧
    positions_array_checked [(0 : ℚ), 1, 0] 1 =
      some (pairup (([(0 : ℚ), 1, 0]).take (2 * 1))) ∧
    _calculate_distances_method3 (DistanceCalculation.init 0 []) ≠ none := by
  refine ⟨?_, ?_, ?_⟩
  · exact ((build_length_amended [(0 : ℚ)] 1 (DistanceCalculation.init 0 [])).1
      (by decide)).1
  · exact ((build_length_amended [(0 : ℚ), 1, 0] 1 (DistanceCalculation.init 0 [])).2.1
      (by decide)).1
  · exact (build_length_amended [] 0 (DistanceCalculation.init 0 [])).2.2.2.2.2

/-- C9: `_distances_override_functions` asserts `0 <= method <= 3` — any
other argument is fatal at setup — and binds each in-range mode to its
query implementation (and, for modes 1–3, its build function); modes 2 and 3
share the square-matrix query and differ only in the build. -/
theorem strategy_selection (m : Int) :
    (m < 0 ∨ 3 < m → _distances_override_functions m = none) ∧
    _distances_override_functions 0 = some (DistFunc.method0, CalcFunc.unbound) ∧
    _distances_override_functions 1 = some (DistFunc.method1, CalcFunc.method1) ∧
    _distances_override_functions 2 = some (DistFunc.method2, CalcFunc.method2) ∧
    _distances_override_functions 3 = some (DistFunc.method2, CalcFunc.method3) := by
  refine ⟨fun h => ?_, by decide, by decide, by decide, by decide⟩
  have hn : ¬(0 ≤ m ∧ m ≤ 3) := by omega
  simp [_distances_override_functions, hn]

/-- Witness for C9 at the out-of-range mode 4 and the in-range mode 0. -/
theorem strategy_selection_witness :
    _distances_override_functions 4 = none ∧
    _distances_override_functions 0 = some (DistFunc.method0, CalcFunc.unbound) :=
  ⟨(strategy_selection 4).1 (Or.inr (by decide)), (strategy_selection 0).2.1⟩

end Distances

